import Mathlib

/-!
# minilog: configuration defaulting, profile composition and handle lifecycle

A shallow embedding of `src/minilog.go`.  Go `int` fields are `Int`, the variadic
argument list of `New` is a `List Config`, a `*MiniLog` handle is an
`Option MiniLog` (`none` is the nil pointer), and the embedded `*zap.Logger` is an
`Option ZapLogger`.  The zap / lumberjack values that `New` builds are recorded as
plain data (which constructor was called with which arguments).
-/

namespace Minilog

/-! ## Configuration (minilog.go 12-62) -/

/-- Config mirrors `type Config struct` (minilog.go 27-33). -/
structure Config where
  Environment : String
  Filename : String
  MaxSize : Int
  MaxBackups : Int
  MaxAge : Int
deriving DecidableEq, Repr

/-- The package variable `defaultConfig` (minilog.go 14-20). -/
def defaultConfig : Config :=
  { Environment := "development"
    Filename := "./tmp.log"
    MaxSize := 500
    MaxBackups := 3
    MaxAge := 10 }

/-- The function `applyDefault` (minilog.go 44-62): four independent guarded
assignments on the by-value copy, then the copy is returned. -/
def applyDefault (config : Config) : Config :=
  let config :=
    if config.Filename = "" then { config with Filename := defaultConfig.Filename } else config
  let config :=
    if config.MaxSize ≤ 0 then { config with MaxSize := defaultConfig.MaxSize } else config
  let config :=
    if config.MaxBackups ≤ 0 then { config with MaxBackups := defaultConfig.MaxBackups } else config
  let config :=
    if config.MaxAge ≤ 0 then { config with MaxAge := defaultConfig.MaxAge } else config
  config

/-! ## The collaborators' data, as `New` uses it -/

/-- Severity levels: `zapcore.Level` is a signed machine integer. -/
abbrev Level := Int

/-- Modelled from the spec: the severity constants of package zapcore, which is not
part of this repository's source; the order is debug, info, warn, error and the
three levels above error, numbered from -1 as zapcore declares them. -/
def DebugLevel : Level := -1

/-- Modelled from the spec: zapcore's info severity (see `DebugLevel`). -/
def InfoLevel : Level := 0

/-- Modelled from the spec: zapcore's warn severity (see `DebugLevel`). -/
def WarnLevel : Level := 1

/-- Modelled from the spec: zapcore's error severity (see `DebugLevel`). -/
def ErrorLevel : Level := 2

/-- Modelled from the spec: zapcore's dpanic severity (see `DebugLevel`). -/
def DPanicLevel : Level := 3

/-- Modelled from the spec: zapcore's panic severity (see `DebugLevel`). -/
def PanicLevel : Level := 4

/-- Modelled from the spec: zapcore's fatal severity (see `DebugLevel`). -/
def FatalLevel : Level := 5

/-- The fields of `lumberjack.Logger` that `New` sets (minilog.go 90-95). -/
structure LumberjackLogger where
  Filename : String
  MaxSize : Int
  MaxBackups : Int
  MaxAge : Int
deriving DecidableEq, Repr

/-- The standard streams an `*os.File` can stand for here. -/
inductive OsFile where
  | Stdin
  | Stdout
  | Stderr
deriving DecidableEq, Repr

/-- The type `nopSyncer` (minilog.go 65-67). -/
structure nopSyncer where
  file : OsFile
deriving DecidableEq, Repr

/-- The method `nopSyncer.Sync` (minilog.go 72-74): always the nil error. -/
def nopSyncer.Sync (_nop : nopSyncer) : Option String := none

/-- The two ways `New` builds a `zapcore.WriteSyncer`:
`zapcore.AddSync(&lumberjack.Logger{...})` and `zapcore.Lock(nopSyncer{...})`. -/
inductive WriteSyncer where
  | AddSync (w : LumberjackLogger)
  | Lock (w : nopSyncer)
deriving DecidableEq, Repr

/-- Time encoders of an encoder configuration; `layout` is
`zapcore.TimeEncoderOfLayout`. -/
inductive TimeEncoder where
  | epoch
  | iso8601
  | layout (l : String)
deriving DecidableEq, Repr

/-- Caller encoders of an encoder configuration. -/
inductive CallerEncoder where
  | short
  | full
deriving DecidableEq, Repr

/-- Which zap constructor produced the remaining encoder settings. -/
inductive EncoderPreset where
  | production
  | development
deriving DecidableEq, Repr

/-- The part of `zapcore.EncoderConfig` that `New` reads or overrides. -/
structure EncoderConfig where
  preset : EncoderPreset
  EncodeTime : TimeEncoder
  EncodeCaller : CallerEncoder
deriving DecidableEq, Repr

/-- The constructor `zap.NewProductionEncoderConfig`. -/
def NewProductionEncoderConfig : EncoderConfig :=
  { preset := .production, EncodeTime := .epoch, EncodeCaller := .short }

/-- The constructor `zap.NewDevelopmentEncoderConfig`. -/
def NewDevelopmentEncoderConfig : EncoderConfig :=
  { preset := .development, EncodeTime := .iso8601, EncodeCaller := .short }

/-- An encoder: structured (`zapcore.NewJSONEncoder`) or human-readable
(`zapcore.NewConsoleEncoder`), with the configuration it was built from. -/
inductive Encoder where
  | NewJSONEncoder (cfg : EncoderConfig)
  | NewConsoleEncoder (cfg : EncoderConfig)
deriving DecidableEq, Repr

/-- A sink: the triple handed to `zapcore.NewCore(enc, ws, enab)`. -/
structure Core where
  enc : Encoder
  ws : WriteSyncer
  enab : Level → Bool

/-- The constructor `zapcore.NewCore`. -/
def NewCore (enc : Encoder) (ws : WriteSyncer) (enab : Level → Bool) : Core :=
  { enc := enc, ws := ws, enab := enab }

/-- The options of package zap that `New` uses. -/
inductive ZapOption where
  | AddCaller
  | Development
  | AddStacktrace (lvl : Level)
deriving DecidableEq, Repr

/-- The state of a `zap.Logger` that `New` determines: the composed sinks and the
three cross-cutting settings. -/
structure ZapLogger where
  cores : List Core
  addCaller : Bool
  development : Bool
  addStack : Level

/-- Modelled from the spec: `zapcore.NewTee` of package zapcore (outside this
repository) composes an ordered collection of sinks into a single entry point; the
collection itself is kept. -/
def NewTee (cores : List Core) : List Core := cores

/-- Modelled from the spec: `zap.New` of package zap (outside this repository) with
no option: no call-site capture, no development marker, and a stack-trace threshold
above every severity. -/
def zapNew (core : List Core) : ZapLogger :=
  { cores := core, addCaller := false, development := false, addStack := FatalLevel + 1 }

/-- Modelled from the spec: the effect of one option of package zap (outside this
repository) on a logger: call-site capture, development marker, stack-trace
threshold. -/
def ZapOption.apply (log : ZapLogger) : ZapOption → ZapLogger
  | .AddCaller => { log with addCaller := true }
  | .Development => { log with development := true }
  | .AddStacktrace lvl => { log with addStack := lvl }

/-- Modelled from the spec: `(*zap.Logger).WithOptions` of package zap (outside this
repository) applies the options in order. -/
def ZapLogger.WithOptions (log : ZapLogger) (opts : List ZapOption) : ZapLogger :=
  opts.foldl ZapOption.apply log

/-- Modelled from the spec: the dispatcher contract of section 4.4 (implemented by
package zapcore, outside this repository): an event of severity `lvl` is written to
every sink whose gate accepts `lvl`, in composition order. -/
def ZapLogger.deliveredTo (log : ZapLogger) (lvl : Level) : List Core :=
  log.cores.filter (fun c => c.enab lvl)

/-- Modelled from the spec: stack-trace capture of package zap (outside this
repository): a trace is attached to an event iff its severity is at or above the
configured threshold. -/
def ZapLogger.capturesStack (log : ZapLogger) (lvl : Level) : Bool :=
  decide (lvl ≥ log.addStack)

/-! ## The handle (minilog.go 23-41, 76-152) -/

/-- The type `MiniLog` (minilog.go 23-25): a struct embedding `*zap.Logger`. -/
structure MiniLog where
  Logger : Option ZapLogger

/-- The method `GetZap` (minilog.go 35-41) on a `*MiniLog` receiver. -/
def GetZap (logger : Option MiniLog) : Option ZapLogger :=
  match logger with
  | none => none
  | some l => l.Logger

/-- Lines 78-82 of `New`: the resolved configuration of an argument list. -/
def resolveConfig (configArg : List Config) : Config :=
  match configArg with
  | [] => defaultConfig
  | c :: _ => applyDefault c

/-- The constructor `New` (minilog.go 76-142). -/
def New (configArg : List Config) : MiniLog :=
  let config := resolveConfig configArg
  let fileWriter := WriteSyncer.AddSync
    { Filename := config.Filename
      MaxSize := config.MaxSize
      MaxBackups := config.MaxBackups
      MaxAge := config.MaxAge }
  if config.Environment = "production" then
    let jsonEncoderConfig :=
      { NewProductionEncoderConfig with
        EncodeTime := TimeEncoder.layout "2006-01-02 15:04:05.000"
        EncodeCaller := CallerEncoder.full }
    let jsonEncoder := Encoder.NewJSONEncoder jsonEncoderConfig
    let enabler : Level → Bool := fun lvl => decide (lvl ≥ ErrorLevel)
    let cores : List Core := [] ++ [NewCore jsonEncoder fileWriter enabler]
    let options : List ZapOption :=
      [] ++ [ZapOption.AddCaller, ZapOption.AddStacktrace ErrorLevel]
    { Logger := some ((zapNew (NewTee cores)).WithOptions options) }
  else
    let jsonEncoderConfig :=
      { NewDevelopmentEncoderConfig with
        EncodeTime := TimeEncoder.layout "2006-01-02 15:04:05.000"
        EncodeCaller := CallerEncoder.full }
    let jsonEncoder := Encoder.NewJSONEncoder jsonEncoderConfig
    let consoleEncoder := Encoder.NewConsoleEncoder jsonEncoderConfig
    let enabler : Level → Bool := fun lvl => decide (lvl ≥ DebugLevel)
    let consoleWriter := WriteSyncer.Lock { file := OsFile.Stderr }
    let cores : List Core := [] ++ [NewCore consoleEncoder consoleWriter enabler]
    let cores : List Core := cores ++ [NewCore jsonEncoder fileWriter enabler]
    let options : List ZapOption :=
      [] ++ [ZapOption.AddCaller, ZapOption.Development, ZapOption.AddStacktrace ErrorLevel]
    { Logger := some ((zapNew (NewTee cores)).WithOptions options) }

/-- A Go run-time panic. -/
inductive Panic where
  | nilDereference
deriving DecidableEq, Repr

/-- The method `(*zap.Logger).Sync`, reached from `Close` through the embedded
pointer.  Its body reads the receiver's `core` field, so on a nil receiver it is a
nil-pointer dereference; otherwise it flushes the sinks and returns their error,
`flushErr` (`none` is the nil error). -/
def ZapLogger.Sync (log : Option ZapLogger) (flushErr : Option String) :
    Except Panic (Option String) :=
  match log with
  | none => .error .nilDereference
  | some _ => .ok flushErr

/-- One line written by `log.Println(err, string(debug.Stack()))`. -/
structure Report where
  err : String
  stack : String
deriving DecidableEq, Repr

/-- What a call of `Close` that returned has done: whether the sinks were flushed,
the reports written to the standard logger, and the handle afterwards. -/
structure Closed where
  handle : Option MiniLog
  flushed : Bool
  reports : List Report

/-- The method `Close` (minilog.go 144-152) on a `*MiniLog` receiver.  `flushErr` is
what flushing the sinks returns and `stack` is what `debug.Stack()` returns. -/
def Close (logger : Option MiniLog) (flushErr : Option String) (stack : String) :
    Except Panic Closed :=
  match logger with
  | none => .ok { handle := none, flushed := false, reports := [] }
  | some l =>
    match ZapLogger.Sync l.Logger flushErr with
    | .error p => .error p
    | .ok none => .ok { handle := some l, flushed := true, reports := [] }
    | .ok (some err) =>
      .ok { handle := some l, flushed := true, reports := [{ err := err, stack := stack }] }

/-- The lumberjack writers behind the sinks of a handle, in composition order. -/
def rotationPolicies (m : MiniLog) : List LumberjackLogger :=
  match m.Logger with
  | none => []
  | some log =>
    log.cores.filterMap fun k =>
      match k.ws with
      | .AddSync w => some w
      | .Lock _ => none

/-- The encoder and writer of each sink of a list, in order (the gate is a
function and is examined separately). -/
def sinkShapes (cores : List Core) : List (Encoder × WriteSyncer) :=
  cores.map fun k => (k.enc, k.ws)

/-! ## Configuration defaulting -/

/-- Closed form of `applyDefault`, field by field. -/
theorem applyDefault_eq (c : Config) :
    applyDefault c =
      { Environment := c.Environment
        Filename := if c.Filename = "" then "./tmp.log" else c.Filename
        MaxSize := if c.MaxSize ≤ 0 then 500 else c.MaxSize
        MaxBackups := if c.MaxBackups ≤ 0 then 3 else c.MaxBackups
        MaxAge := if c.MaxAge ≤ 0 then 10 else c.MaxAge } := by
  unfold applyDefault
  simp only [defaultConfig]
  split_ifs <;> rfl

/-- The environment of the resolved configuration of a non-empty argument list is
the environment of its first element. -/
theorem resolveConfig_cons_Environment (c : Config) (rest : List Config) :
    (resolveConfig (c :: rest)).Environment = c.Environment := by
  simp [resolveConfig, applyDefault_eq]

/-- C1: `applyDefault` treats each field on its own: the filename is replaced by
"./tmp.log" exactly when it is empty, each numeric field by its default (500, 3,
10) exactly when it is not positive, every other value is returned as given, and
the environment is always returned as given. -/
theorem applyDefault_fieldwise (c : Config) :
    (applyDefault c).Filename = (if c.Filename = "" then "./tmp.log" else c.Filename) ∧
    (applyDefault c).MaxSize = (if c.MaxSize ≤ 0 then 500 else c.MaxSize) ∧
    (applyDefault c).MaxBackups = (if c.MaxBackups ≤ 0 then 3 else c.MaxBackups) ∧
    (applyDefault c).MaxAge = (if c.MaxAge ≤ 0 then 10 else c.MaxAge) ∧
    (applyDefault c).Environment = c.Environment := by
  rw [applyDefault_eq]
  exact ⟨rfl, rfl, rfl, rfl, rfl⟩

/-! ## Profile composition -/

/-- C2: when the supplied configuration names the production environment, `New`
composes exactly one sink, the rotating file behind the structured encoder (so no
console sink exists); its gate accepts a severity exactly when it is at least
error; an event below error is delivered to no sink and an event at or above error
to exactly that file sink. -/
theorem New_production_sinks (c : Config) (rest : List Config)
    (h : c.Environment = "production") :
    ∃ log, (New (c :: rest)).Logger = some log ∧
      sinkShapes log.cores =
        [(Encoder.NewJSONEncoder
            ⟨EncoderPreset.production, TimeEncoder.layout "2006-01-02 15:04:05.000",
              CallerEncoder.full⟩,
          WriteSyncer.AddSync
            ⟨(applyDefault c).Filename, (applyDefault c).MaxSize,
              (applyDefault c).MaxBackups, (applyDefault c).MaxAge⟩)] ∧
      (∀ k ∈ log.cores, ∀ l : Level, k.enab l = true ↔ l ≥ ErrorLevel) ∧
      (∀ l : Level, l < ErrorLevel → log.deliveredTo l = []) ∧
      (∀ l : Level, l ≥ ErrorLevel → log.deliveredTo l = log.cores) := by
  have henv : (resolveConfig (c :: rest)).Environment = "production" := by
    rw [resolveConfig_cons_Environment, h]
  refine ⟨_, by unfold New; rw [if_pos henv], ?_, ?_, ?_, ?_⟩
  · simp [ZapLogger.WithOptions, ZapOption.apply, zapNew, NewTee, NewCore, sinkShapes,
      NewProductionEncoderConfig, resolveConfig]
  · intro k hk l
    simp [ZapLogger.WithOptions, ZapOption.apply, zapNew, NewTee, NewCore] at hk
    subst hk
    simp
  · intro l hl
    simp [ZapLogger.WithOptions, ZapOption.apply, zapNew, NewTee, NewCore,
      ZapLogger.deliveredTo]
    exact hl
  · intro l hl
    simp [ZapLogger.WithOptions, ZapOption.apply, zapNew, NewTee, NewCore,
      ZapLogger.deliveredTo]
    exact hl

/-- Witness for C2 at the production configuration of the spec's scenario: an info
event reaches no sink, an error event reaches the one file sink. -/
theorem New_production_sinks_witness :
    ∃ log, (New [⟨"production", "a.log", 1, 2, 5⟩]).Logger = some log ∧
      sinkShapes log.cores =
        [(Encoder.NewJSONEncoder
            ⟨EncoderPreset.production, TimeEncoder.layout "2006-01-02 15:04:05.000",
              CallerEncoder.full⟩,
          WriteSyncer.AddSync ⟨"a.log", 1, 2, 5⟩)] ∧
      log.deliveredTo InfoLevel = [] ∧
      log.deliveredTo ErrorLevel = log.cores := by
  obtain ⟨log, h1, h2, _, h4, h5⟩ :=
    New_production_sinks ⟨"production", "a.log", 1, 2, 5⟩ [] (by decide)
  exact ⟨log, h1, h2, h4 InfoLevel (by decide), h5 ErrorLevel (by decide)⟩

/-- C3: in the development profile (no argument, or a configuration whose
environment is not "production") `New` composes exactly two sinks in this order:
the console (standard error) behind the human-readable encoder, then the rotating
file behind the structured encoder; both carry the same gate, which accepts every
severity from debug upward, so every such event is delivered to both sinks. -/
theorem New_development_sinks (configArg : List Config)
    (h : ∀ c ∈ configArg.head?, c.Environment ≠ "production") :
    ∃ log, (New configArg).Logger = some log ∧
      sinkShapes log.cores =
        [(Encoder.NewConsoleEncoder
            ⟨EncoderPreset.development, TimeEncoder.layout "2006-01-02 15:04:05.000",
              CallerEncoder.full⟩,
          WriteSyncer.Lock ⟨OsFile.Stderr⟩),
         (Encoder.NewJSONEncoder
            ⟨EncoderPreset.development, TimeEncoder.layout "2006-01-02 15:04:05.000",
              CallerEncoder.full⟩,
          WriteSyncer.AddSync
            ⟨(resolveConfig configArg).Filename, (resolveConfig configArg).MaxSize,
              (resolveConfig configArg).MaxBackups, (resolveConfig configArg).MaxAge⟩)] ∧
      (∀ k ∈ log.cores, ∀ k2 ∈ log.cores, k.enab = k2.enab) ∧
      (∀ k ∈ log.cores, ∀ l : Level, l ≥ DebugLevel → k.enab l = true) ∧
      (∀ l : Level, l ≥ DebugLevel → log.deliveredTo l = log.cores) := by
  have henv : ¬ (resolveConfig configArg).Environment = "production" := by
    cases configArg with
    | nil => simp [resolveConfig, defaultConfig]
    | cons c rest =>
      have := h c (by simp)
      simpa [resolveConfig_cons_Environment] using this
  refine ⟨_, by unfold New; rw [if_neg henv], ?_, ?_, ?_, ?_⟩
  · simp [ZapLogger.WithOptions, ZapOption.apply, zapNew, NewTee, NewCore, sinkShapes,
      NewDevelopmentEncoderConfig]
  · intro k hk k2 hk2
    simp [ZapLogger.WithOptions, ZapOption.apply, zapNew, NewTee, NewCore] at hk hk2
    rcases hk with rfl | rfl <;> rcases hk2 with rfl | rfl <;> rfl
  · intro k hk l hl
    simp [ZapLogger.WithOptions, ZapOption.apply, zapNew, NewTee, NewCore] at hk
    rcases hk with rfl | rfl <;> simpa using hl
  · intro l hl
    have hl2 : DebugLevel ≤ l := hl
    simp [ZapLogger.WithOptions, ZapOption.apply, zapNew, NewTee, NewCore,
      ZapLogger.deliveredTo, hl2]

/-- Witness for C3 at a configuration with an unknown environment and unset
backup count: the two sinks write to standard error and to "d.log", and debug and
error events reach both. -/
theorem New_development_sinks_witness :
    ∃ log, (New [⟨"staging", "d.log", 20, 0, 7⟩]).Logger = some log ∧
      sinkShapes log.cores =
        [(Encoder.NewConsoleEncoder
            ⟨EncoderPreset.development, TimeEncoder.layout "2006-01-02 15:04:05.000",
              CallerEncoder.full⟩,
          WriteSyncer.Lock ⟨OsFile.Stderr⟩),
         (Encoder.NewJSONEncoder
            ⟨EncoderPreset.development, TimeEncoder.layout "2006-01-02 15:04:05.000",
              CallerEncoder.full⟩,
          WriteSyncer.AddSync ⟨"d.log", 20, 3, 7⟩)] ∧
      log.deliveredTo DebugLevel = log.cores ∧
      log.deliveredTo ErrorLevel = log.cores := by
  obtain ⟨log, h1, h2, _, _, h5⟩ :=
    New_development_sinks [⟨"staging", "d.log", 20, 0, 7⟩]
      (by intro c hc; cases hc; decide)
  exact ⟨log, h1, h2, h5 DebugLevel (by decide), h5 ErrorLevel (by decide)⟩

/-! ## Rotation settings -/

/-- The lumberjack writer of `New` is built from the resolved configuration in
both profiles. -/
theorem rotationPolicies_New (configArg : List Config) :
    rotationPolicies (New configArg) =
      [⟨(resolveConfig configArg).Filename, (resolveConfig configArg).MaxSize,
        (resolveConfig configArg).MaxBackups, (resolveConfig configArg).MaxAge⟩] := by
  unfold New
  by_cases henv : (resolveConfig configArg).Environment = "production"
  · rw [if_pos henv]
    simp [rotationPolicies, ZapLogger.WithOptions, ZapOption.apply, zapNew, NewTee, NewCore]
  · rw [if_neg henv]
    simp [rotationPolicies, ZapLogger.WithOptions, ZapOption.apply, zapNew, NewTee, NewCore]

/-- C4: for every argument list the one lumberjack writer behind the file sink
carries exactly the resolved Filename, MaxSize, MaxBackups and MaxAge: with no
argument ("./tmp.log", 500, 3, 10); with a configuration `c` (further arguments are
not read) the four fields of `applyDefault c`, so a non-empty filename and positive
numbers are passed through; the spec's scenario yields ("a.log", 1, 2, 5). -/
theorem New_rotation_settings :
    rotationPolicies (New []) = [⟨"./tmp.log", 500, 3, 10⟩] ∧
    (∀ (c : Config) (rest : List Config),
      rotationPolicies (New (c :: rest)) =
        [⟨(applyDefault c).Filename, (applyDefault c).MaxSize,
          (applyDefault c).MaxBackups, (applyDefault c).MaxAge⟩]) ∧
    (∀ (c : Config) (rest : List Config),
      rotationPolicies (New (c :: rest)) =
        [⟨if c.Filename = "" then "./tmp.log" else c.Filename,
          if c.MaxSize ≤ 0 then 500 else c.MaxSize,
          if c.MaxBackups ≤ 0 then 3 else c.MaxBackups,
          if c.MaxAge ≤ 0 then 10 else c.MaxAge⟩]) ∧
    rotationPolicies (New [⟨"production", "a.log", 1, 2, 5⟩]) = [⟨"a.log", 1, 2, 5⟩] := by
  refine ⟨?_, ?_, ?_, ?_⟩
  · rw [rotationPolicies_New]; rfl
  · intro c rest
    rw [rotationPolicies_New]; rfl
  · intro c rest
    rw [rotationPolicies_New]
    simp only [resolveConfig, applyDefault_eq]
  · rw [rotationPolicies_New]; rfl

/-- C8 (evaluation of the code): a configuration that leaves MaxBackups and MaxAge
at 0 does not reach the lumberjack writer with 0 (unlimited retention): `New`
configures it with 3 backups and 10 days, in either profile. -/
theorem New_unset_retention_defaulted :
    rotationPolicies (New [⟨"production", "a.log", 1, 0, 0⟩]) = [⟨"a.log", 1, 3, 10⟩] ∧
    rotationPolicies (New [⟨"development", "a.log", 1, 0, 0⟩]) = [⟨"a.log", 1, 3, 10⟩] := by
  constructor <;> (rw [rotationPolicies_New]; rfl)

/-! ## Handle lifecycle -/

/-- Every handle built by `New` embeds a logger. -/
theorem New_Logger_some (configArg : List Config) :
    ∃ log, (New configArg).Logger = some log := by
  unfold New
  by_cases henv : (resolveConfig configArg).Environment = "production"
  · rw [if_pos henv]; exact ⟨_, rfl⟩
  · rw [if_neg henv]; exact ⟨_, rfl⟩

/-- `Close` on a handle that embeds a logger: it flushes, returns, and reports the
flush error when there is one. -/
theorem Close_of_Logger_some (m : MiniLog) (log : ZapLogger) (hm : m.Logger = some log)
    (flushErr : Option String) (stack : String) :
    Close (some m) flushErr stack =
      .ok { handle := some m, flushed := true,
            reports := match flushErr with
              | none => []
              | some err => [⟨err, stack⟩] } := by
  cases flushErr <;> simp [Close, ZapLogger.Sync, hm]

/-- C5 (as stated, refuted): on the zero value `MiniLog{}`, a non-nil handle whose
embedded logger is nil, `Close` does not return normally: it passes the nil-receiver
guard and calls `Sync` on the missing logger, which is a nil dereference. -/
theorem Close_zero_value_not_safe :
    ¬ ∃ r, Close (some { Logger := none }) none "" = .ok r := by
  simp [Close, ZapLogger.Sync]

/-- C5 (amended): on a non-nil handle whose embedded logger is nil, `GetZap` returns
nil; `Close` is guarded against the nil handle only, so here it reaches `Sync` on the
missing logger and ends in a nil dereference whatever the environment. -/
theorem zero_value_handle_behaviour :
    GetZap (some { Logger := none }) = none ∧
    ∀ (flushErr : Option String) (stack : String),
      Close (some { Logger := none }) flushErr stack = .error Panic.nilDereference := by
  refine ⟨rfl, ?_⟩
  intro flushErr stack
  simp [Close, ZapLogger.Sync]

/-- C6: on the nil handle `GetZap` returns nil, and `Close` returns at once: nothing
is flushed and nothing is written to the standard logger; neither call faults. -/
theorem nil_handle_noop :
    GetZap none = none ∧
    ∀ (flushErr : Option String) (stack : String),
      Close none flushErr stack = .ok { handle := none, flushed := false, reports := [] } :=
  ⟨rfl, fun _ _ => rfl⟩

/-- C7: for every handle built by `New` and every outcome of the flush, `Close`
returns normally; it writes exactly one report, holding the flush error and the
captured stack, when the flush returned an error and none otherwise; the handle is
left as it was, so a second `Close` on it with the same flush outcome gives the same
result, and with any other outcome returns normally as well, reporting exactly its
own flush error, if any. -/
theorem Close_New_reports (configArg : List Config) (flushErr flushErr2 : Option String)
    (stack stack2 : String) :
    ∃ r, Close (some (New configArg)) flushErr stack = .ok r ∧
      r.handle = some (New configArg) ∧
      r.flushed = true ∧
      r.reports = (match flushErr with
        | none => []
        | some err => [⟨err, stack⟩]) ∧
      (r.reports.length = 1 ↔ flushErr ≠ none) ∧
      (r.reports = [] ↔ flushErr = none) ∧
      Close r.handle flushErr stack = .ok r ∧
      ∃ r2, Close r.handle flushErr2 stack2 = .ok r2 ∧
        r2.handle = r.handle ∧
        r2.reports = (match flushErr2 with
          | none => []
          | some err => [⟨err, stack2⟩]) := by
  obtain ⟨log, hlog⟩ := New_Logger_some configArg
  refine ⟨_, Close_of_Logger_some _ log hlog flushErr stack, rfl, rfl, rfl, ?_, ?_,
    Close_of_Logger_some _ log hlog flushErr stack,
    _, Close_of_Logger_some _ log hlog flushErr2 stack2, rfl, rfl⟩
  · cases flushErr <;> simp
  · cases flushErr <;> simp

/-! ## Cross-cutting options and profile selection -/

/-- C9: for every argument list the logger built by `New` has call-site capture on
and the stack-trace threshold at error, so a trace is captured exactly for
severities at or above error (none for debug, info, warn); the development marker
is set exactly when the resolved environment is not "production". -/
theorem New_options (configArg : List Config) :
    ∃ log, (New configArg).Logger = some log ∧
      log.addCaller = true ∧
      log.addStack = ErrorLevel ∧
      (∀ l : Level, log.capturesStack l = true ↔ l ≥ ErrorLevel) ∧
      log.capturesStack DebugLevel = false ∧
      log.capturesStack InfoLevel = false ∧
      log.capturesStack WarnLevel = false ∧
      (log.development = true ↔ (resolveConfig configArg).Environment ≠ "production") := by
  unfold New
  by_cases henv : (resolveConfig configArg).Environment = "production"
  · rw [if_pos henv]
    refine ⟨_, rfl, rfl, rfl, ?_, rfl, rfl, rfl, ?_⟩
    · intro l
      simp [ZapLogger.capturesStack, ZapLogger.WithOptions, ZapOption.apply, zapNew]
    · simp [ZapLogger.WithOptions, ZapOption.apply, zapNew, henv]
  · rw [if_neg henv]
    refine ⟨_, rfl, rfl, rfl, ?_, rfl, rfl, rfl, ?_⟩
    · intro l
      simp [ZapLogger.capturesStack, ZapLogger.WithOptions, ZapOption.apply, zapNew]
    · simp [ZapLogger.WithOptions, ZapOption.apply, zapNew, henv]

/-- `New` reads the environment of its first argument only through the test
against "production". -/
theorem New_cons_Environment_congr (c d : Config) (rest rest2 : List Config)
    (hf : c.Filename = d.Filename) (hs : c.MaxSize = d.MaxSize)
    (hb : c.MaxBackups = d.MaxBackups) (ha : c.MaxAge = d.MaxAge)
    (he : c.Environment = "production" ↔ d.Environment = "production") :
    New (c :: rest) = New (d :: rest2) := by
  unfold New
  simp only [resolveConfig, applyDefault_eq, hf, hs, hb, ha]
  by_cases hc : c.Environment = "production"
  · rw [if_pos hc, if_pos (he.mp hc)]
  · rw [if_neg hc, if_neg (fun hd => hc (he.mpr hd))]

/-- C10: the profile is chosen by exact comparison of the environment with
"production": `New` builds the one-sink logger without development marker exactly
when the environment is "production", and otherwise builds what it builds for
"development" (so for "", "Production", "prod" too); `applyDefault` leaves the
environment as given; `New` without argument and `New` on the zero configuration
build the same handle. -/
theorem New_profile_selection (c : Config) (rest : List Config) :
    (applyDefault c).Environment = c.Environment ∧
    ((∃ log, (New (c :: rest)).Logger = some log ∧ log.cores.length = 1 ∧
        log.development = false) ↔ c.Environment = "production") ∧
    ((∃ log, (New (c :: rest)).Logger = some log ∧ log.cores.length = 2 ∧
        log.development = true) ↔ c.Environment ≠ "production") ∧
    New (c :: rest) =
      New ({ c with Environment :=
              if c.Environment = "production" then "production" else "development" } :: rest) ∧
    New ({ c with Environment := "" } :: rest) =
      New ({ c with Environment := "development" } :: rest) ∧
    New ({ c with Environment := "Production" } :: rest) =
      New ({ c with Environment := "development" } :: rest) ∧
    New ({ c with Environment := "prod" } :: rest) =
      New ({ c with Environment := "development" } :: rest) ∧
    New [] = New [⟨"", "", 0, 0, 0⟩] := by
  refine ⟨by rw [applyDefault_eq], ?_, ?_, ?_, ?_, ?_, ?_, ?_⟩
  · unfold New
    by_cases hc : c.Environment = "production"
    · rw [if_pos (by rw [resolveConfig_cons_Environment]; exact hc)]
      simp [hc, ZapLogger.WithOptions, ZapOption.apply, zapNew, NewTee]
    · rw [if_neg (by rw [resolveConfig_cons_Environment]; exact hc)]
      simp [hc, ZapLogger.WithOptions, ZapOption.apply, zapNew, NewTee]
  · unfold New
    by_cases hc : c.Environment = "production"
    · rw [if_pos (by rw [resolveConfig_cons_Environment]; exact hc)]
      simp [hc, ZapLogger.WithOptions, ZapOption.apply, zapNew, NewTee]
    · rw [if_neg (by rw [resolveConfig_cons_Environment]; exact hc)]
      simp [hc, ZapLogger.WithOptions, ZapOption.apply, zapNew, NewTee]
  · apply New_cons_Environment_congr <;> first | rfl | skip
    by_cases hc : c.Environment = "production" <;> simp [hc]
  · apply New_cons_Environment_congr <;> first | rfl | simp
  · apply New_cons_Environment_congr <;> first | rfl | simp
  · apply New_cons_Environment_congr <;> first | rfl | simp
  · unfold New
    rw [if_neg (by simp [resolveConfig, defaultConfig]),
      if_neg (by simp [resolveConfig, applyDefault_eq])]
    rfl

end Minilog
